import Mathlib

/-!
Shallow embedding of the `unique-pointer` crate's core:
`RefCounter` (src/refcounter.rs), `UniquePointer` (src/unique_pointer.rs)
and `SmartPointer` (src/smart_pointer.rs).

Heap memory is modelled explicitly:

* `CHeap` is the heap of `usize` cells backing `RefCounter` values; an
  address of `0` plays the role of the null pointer, so a fresh heap
  starts allocating at address `1`.
* `VHeap T` is the heap of allocations for the pointee type `T`; a cell
  holds `some none` right after `alloc_zeroed` (allocated, no valid `T`
  written yet) and `some (some v)` once a `T` has been written.

Rust methods that mutate through `&self` / `&mut self` (the crate's
`meta_mut` trick) are translated as functions returning the updated
receiver together with the updated heap.
-/

/-- Heap of `usize` cells backing `RefCounter` (`std::alloc` cells of
`Layout::new::<usize>()`).  `next` is the next fresh address (never 0);
`cells a = some v` means address `a` is allocated and stores `v`. -/
structure CHeap where
  next : Nat
  cells : Nat → Option Nat

/-- `RefCounter` from src/refcounter.rs: one raw field `data: *mut usize`;
`data = 0` models the null pointer. -/
structure RefCounter where
  data : Nat

/-- `RefCounter::null()`: `data` is the null pointer. -/
def RefCounter.null : RefCounter := { data := 0 }

/-- `RefCounter::read()`: 0 when `data` is null, else the pointed-to value
(`cast_const` + raw `read`). -/
def RefCounter.read (rc : RefCounter) (h : CHeap) : Nat :=
  if rc.data = 0 then 0 else (h.cells rc.data).getD 0

/-- `RefCounter::alloc()`: returns immediately when `data` is non-null;
otherwise obtains a fresh cell, stores it in `data` and writes 1 through
`up.write(1)` (whose inner `alloc` call then returns immediately). -/
def RefCounter.alloc (rc : RefCounter) (h : CHeap) : RefCounter × CHeap :=
  if rc.data ≠ 0 then (rc, h)
  else
    ({ data := h.next },
     { next := h.next + 1,
       cells := fun a => if a = h.next then some 1 else h.cells a })

/-- `RefCounter::write(data)`: allocate if needed, then store through the
raw pointer. -/
def RefCounter.write (rc : RefCounter) (h : CHeap) (v : Nat) : RefCounter × CHeap :=
  let p := rc.alloc h
  (p.1, { p.2 with cells := fun a => if a = p.1.data then some v else p.2.cells a })

/-- `RefCounter::incr_by(by)`: `write(read() + by)`. -/
def RefCounter.incr_by (rc : RefCounter) (h : CHeap) (n : Nat) : RefCounter × CHeap :=
  rc.write h (rc.read h + n)

/-- `RefCounter::incr()`: `incr_by(1)`. -/
def RefCounter.incr (rc : RefCounter) (h : CHeap) : RefCounter × CHeap :=
  rc.incr_by h 1

/-- `RefCounter::decr_by(by)`: read-modify-write that only stores when
`data >= by`; larger decrements leave the count unchanged. -/
def RefCounter.decr_by (rc : RefCounter) (h : CHeap) (n : Nat) : RefCounter × CHeap :=
  let d := rc.read h
  if n ≤ d then rc.write h (d - n) else (rc, h)

/-- `RefCounter::decr()`: `decr_by(1)`. -/
def RefCounter.decr (rc : RefCounter) (h : CHeap) : RefCounter × CHeap :=
  rc.decr_by h 1

/-- `RefCounter::new()`: `null()` then `incr()`, i.e. a fresh cell holding 1. -/
def RefCounter.new (h : CHeap) : RefCounter × CHeap :=
  RefCounter.null.incr h

/-- `RefCounter::reset()`: writes 1 (through `meta_mut`). -/
def RefCounter.reset (rc : RefCounter) (h : CHeap) : RefCounter × CHeap :=
  rc.write h 1

/-- `RefCounter::drain()`: when `data` is non-null it runs
`drop_in_place` (a no-op on memory for `usize`, which has no drop glue)
and then calls `alloc`, which returns immediately because `data` is still
non-null. -/
def RefCounter.drain (rc : RefCounter) (h : CHeap) : RefCounter × CHeap :=
  if rc.data ≠ 0 then rc.alloc h else (rc, h)

/-- `impl Clone for RefCounter`: builds `RefCounter::new()` (allocating a
fresh cell that is immediately leaked) and then overwrites its `data`
with the source's `data`, so the clone shares the source's cell. -/
def RefCounter.clone (rc : RefCounter) (h : CHeap) : RefCounter × CHeap :=
  let p := RefCounter.new h
  ({ data := rc.data }, p.2)

/-- `impl From<usize> for RefCounter`: `new()` then `write(refs)`. -/
def RefCounter.fromNat (refs : Nat) (h : CHeap) : RefCounter × CHeap :=
  let p := RefCounter.new h
  p.1.write p.2 refs

/-- A concrete counter heap used to evaluate theorems on closed inputs:
address 1 is allocated and stores 5. -/
def exCH : CHeap := { next := 2, cells := fun a => if a = 1 then some 5 else none }

/-- Heap of allocations of the pointee type `T` (src/unique_pointer.rs
uses `std::alloc::alloc_zeroed(Layout::new::<T>())`).  A cell holding
`some none` is allocated zeroed memory with no valid `T` yet; `some
(some v)` holds the written value `v`. -/
structure VHeap (T : Type) where
  next : Nat
  cells : Nat → Option (Option T)

/-- Combined memory state for `UniquePointer` operations: the counter
heap and the value heap. -/
structure Mem (T : Type) where
  ch : CHeap
  vh : VHeap T

/-- Flag bit `ISACOPY = 0b0001` from src/unique_pointer.rs. -/
def ISACOPY : Nat := 1

/-- Flag bit `ISALLOC = 0b0010` from src/unique_pointer.rs. -/
def ISALLOC : Nat := 2

/-- Flag bit `WRITTEN = 0b0100` from src/unique_pointer.rs. -/
def WRITTEN : Nat := 4

/-- `UniquePointer<T>` from src/unique_pointer.rs: stored address,
raw pointer (0 = null), shared `RefCounter`, and the `u8` flag bits. -/
structure UniquePointer (T : Type) where
  mut_addr : Nat
  mut_ptr : Nat
  refs : RefCounter
  flags : Nat

/-- `UniquePointer::is_null()`: the raw pointer is null (the
`null-check` feature's assertions are compiled out by default). -/
def UniquePointer.is_null (up : UniquePointer T) : Bool :=
  up.mut_ptr == 0

/-- `UniquePointer::is_not_null()`. -/
def UniquePointer.is_not_null (up : UniquePointer T) : Bool :=
  !up.is_null

/-- `UniquePointer::is_copy()`: the `ISACOPY` bit is set. -/
def UniquePointer.is_copy (up : UniquePointer T) : Bool :=
  (up.flags &&& ISACOPY) == ISACOPY

/-- `UniquePointer::is_not_copy()`. -/
def UniquePointer.is_not_copy (up : UniquePointer T) : Bool :=
  !up.is_copy

/-- `UniquePointer::can_dealloc()`: allocated bit set, not a copy, not null. -/
def UniquePointer.can_dealloc (up : UniquePointer T) : Bool :=
  ((up.flags &&& ISALLOC) == ISALLOC) && up.is_not_copy && up.is_not_null

/-- `UniquePointer::is_allocated()`: allocated bit set and not null. -/
def UniquePointer.is_allocated (up : UniquePointer T) : Bool :=
  ((up.flags &&& ISALLOC) == ISALLOC) && up.is_not_null

/-- `UniquePointer::is_written()`: written bit set and allocated. -/
def UniquePointer.is_written (up : UniquePointer T) : Bool :=
  ((up.flags &&& WRITTEN) == WRITTEN) && up.is_allocated

/-- `UniquePointer::addr()`: the stored address/provenance value. -/
def UniquePointer.addr (up : UniquePointer T) : Nat :=
  up.mut_addr

/-- `UniquePointer::refs()`: dereferences the `RefCounter`
(`inner_ref`), which is 0 for a null counter and the cell's value
otherwise — the same value as `RefCounter::read`. -/
def UniquePointer.refs_count (up : UniquePointer T) (ch : CHeap) : Nat :=
  up.refs.read ch

/-- `UniquePointer::null()`: null pointer, zero address, no flags, and a
fresh `RefCounter::new()` (which allocates a counter cell holding 1). -/
def UniquePointer.null (ch : CHeap) : UniquePointer T × CHeap :=
  let p := RefCounter.new ch
  ({ mut_addr := 0, mut_ptr := 0, refs := p.1, flags := 0 }, p.2)

/-- `UniquePointer::copy()`: a `null()` handle with the `ISACOPY` bit set. -/
def UniquePointer.copy (ch : CHeap) : UniquePointer T × CHeap :=
  let p := UniquePointer.null (T := T) ch
  ({ p.1 with flags := p.1.flags ||| ISACOPY }, p.2)

/-- `UniquePointer::set_mut_ptr(ptr, dealloc)`: when `ptr` is null and
`dealloc && is_allocated()` holds, clears flags and address, returns the
value allocation to the allocator and nulls the pointer; otherwise just
stores `ptr` and its provenance address (`expose_provenance` of a
pointer is its integer address, and of the null pointer is 0). -/
def UniquePointer.set_mut_ptr (up : UniquePointer T) (ptr : Nat) (dealloc : Bool)
    (m : Mem T) : UniquePointer T × Mem T :=
  if ptr = 0 then
    if dealloc = true ∧ up.is_allocated = true then
      ({ up with flags := 0, mut_addr := 0, mut_ptr := 0 },
       { m with vh := { m.vh with
          cells := fun a => if a = up.mut_ptr then none else m.vh.cells a } })
    else
      ({ up with mut_addr := 0, mut_ptr := 0 }, m)
  else
    ({ up with mut_addr := ptr, mut_ptr := ptr }, m)

/-- `UniquePointer::alloc()`: no-op when already allocated; otherwise
reserves a fresh zeroed cell for `T`, stores it via
`set_mut_ptr(ptr, false)` and sets `ISALLOC`. -/
def UniquePointer.alloc (up : UniquePointer T) (m : Mem T) : UniquePointer T × Mem T :=
  if up.is_allocated = true then (up, m)
  else
    let vh1 : VHeap T :=
      { next := m.vh.next + 1,
        cells := fun a => if a = m.vh.next then some none else m.vh.cells a }
    let p := up.set_mut_ptr m.vh.next false { m with vh := vh1 }
    ({ p.1 with flags := p.1.flags ||| ISALLOC }, p.2)

/-- `UniquePointer::write(data)`: `alloc()`, raw-write the value, set
`WRITTEN`. -/
def UniquePointer.write (up : UniquePointer T) (v : T) (m : Mem T) :
    UniquePointer T × Mem T :=
  let p := up.alloc m
  ({ p.1 with flags := p.1.flags ||| WRITTEN },
   { p.2 with vh := { p.2.vh with
      cells := fun a => if a = p.1.mut_ptr then some (some v) else p.2.vh.cells a } })

/-- `UniquePointer::read()`: panics (`none`) when null or not written;
otherwise reads the pointed-to cell.  `none` in the final case models
reading memory into which no valid `T` was ever stored. -/
def UniquePointer.read (up : UniquePointer T) (m : Mem T) : Option T :=
  if up.is_null = true then none
  else if up.is_written = false then none
  else
    match m.vh.cells up.mut_ptr with
    | some (some v) => some v
    | _ => none

/-- `UniquePointer::try_read()`: `None` when null or not written, else
the result of `read()`. -/
def UniquePointer.try_read (up : UniquePointer T) (m : Mem T) : Option T :=
  if up.is_null = true then none
  else if up.is_written = true then up.read m
  else none

/-- `UniquePointer::incr_ref()`: no-op on a null handle, otherwise
increments the shared counter.  Returns the (possibly reallocated)
`refs` field together with the heap, since Rust mutates `self.refs`
in place through `meta_mut`. -/
def UniquePointer.incr_ref (up : UniquePointer T) (ch : CHeap) : RefCounter × CHeap :=
  if up.is_null = true then (up.refs, ch) else up.refs.incr ch

/-- `UniquePointer::decr_ref()`: no-op when the counter reads 0,
otherwise decrements the shared counter. -/
def UniquePointer.decr_ref (up : UniquePointer T) (ch : CHeap) : RefCounter × CHeap :=
  if up.refs.read ch = 0 then (up.refs, ch) else up.refs.decr ch

/-- `impl Clone for UniquePointer`: `incr_ref()`, then a `copy()`
skeleton, `set_mut_ptr(self.mut_ptr, false)`, `self.refs.clone()`, and
finally `clone.flags = self.flags` (which overwrites the `ISACOPY` bit
set by `copy()`). -/
def UniquePointer.clone (up : UniquePointer T) (m : Mem T) : UniquePointer T × Mem T :=
  let r := up.incr_ref m.ch
  let c := UniquePointer.copy (T := T) r.2
  let s := c.1.set_mut_ptr up.mut_ptr false { ch := c.2, vh := m.vh }
  let q := r.1.clone s.2.ch
  ({ s.1 with refs := q.1, flags := up.flags }, { s.2 with ch := q.2 })

/-- `UniquePointer::propagate()`: like `clone` but the skeleton is
`null()` instead of `copy()`; the final `flags = self.flags` assignment
makes the two end states identical. -/
def UniquePointer.propagate (up : UniquePointer T) (m : Mem T) : UniquePointer T × Mem T :=
  let r := up.incr_ref m.ch
  let c := UniquePointer.null (T := T) r.2
  let s := c.1.set_mut_ptr up.mut_ptr false { ch := c.2, vh := m.vh }
  let q := r.1.clone s.2.ch
  ({ s.1 with refs := q.1, flags := up.flags }, { s.2 with ch := q.2 })

/-- `UniquePointer::free()`: no-op unless `can_dealloc()`; otherwise
nulls the pointer via `set_mut_ptr(null, false)`, drains the counter and
clears the flags. -/
def UniquePointer.free (up : UniquePointer T) (m : Mem T) : UniquePointer T × Mem T :=
  if up.can_dealloc = false then (up, m)
  else
    if up.is_null = false then
      let p := up.set_mut_ptr 0 false m
      let q := p.1.refs.drain p.2.ch
      ({ p.1 with refs := q.1, flags := 0 }, { p.2 with ch := q.2 })
    else ({ up with flags := 0 }, m)

/-- `UniquePointer::dealloc(soft)`: no-op on a null handle; with
`soft = true` and a positive counter it only decrements; otherwise it
calls `free()`. -/
def UniquePointer.dealloc (up : UniquePointer T) (soft : Bool) (m : Mem T) :
    UniquePointer T × Mem T :=
  if up.is_null = true then (up, m)
  else if soft = true ∧ 0 < up.refs.read m.ch then
    let r := up.decr_ref m.ch
    ({ up with refs := r.1 }, { m with ch := r.2 })
  else up.free m

/-- `SmartPointer<T>` from src/smart_pointer.rs: stored address, raw
pointer (0 = null) and a plain `written` flag; no reference counter. -/
structure SmartPointer (T : Type) where
  mut_addr : Nat
  mut_ptr : Nat
  written : Bool
deriving DecidableEq

/-- `SmartPointer::null()`. -/
def SmartPointer.null : SmartPointer T :=
  { mut_addr := 0, mut_ptr := 0, written := false }

/-- `SmartPointer::copy_from_mut_ptr(ptr)`: stores `ptr` and its
provenance address and unconditionally sets `written: true`. -/
def SmartPointer.copy_from_mut_ptr (ptr : Nat) : SmartPointer T :=
  { mut_addr := ptr, mut_ptr := ptr, written := true }

/-- `impl Clone for SmartPointer`: `copy_from_mut_ptr(self.mut_ptr)`. -/
def SmartPointer.clone (sp : SmartPointer T) : SmartPointer T :=
  SmartPointer.copy_from_mut_ptr sp.mut_ptr

/-- `SmartPointer::is_null()`. -/
def SmartPointer.is_null (sp : SmartPointer T) : Bool :=
  sp.mut_ptr == 0

/-- `SmartPointer::is_written()`: not null and the `written` flag. -/
def SmartPointer.is_written (sp : SmartPointer T) : Bool :=
  (!sp.is_null) && sp.written

/-- `SmartPointer::addr()`. -/
def SmartPointer.addr (sp : SmartPointer T) : Nat :=
  sp.mut_addr

/-- An initial empty memory over `Nat` pointees: both heaps start
allocating at address 1 and hold no cells. -/
def exMem : Mem Nat :=
  { ch := { next := 1, cells := fun _ => none },
    vh := { next := 1, cells := fun _ => none } }

/-- `UniquePointer::null()` evaluated on the initial memory. -/
def exNull : UniquePointer Nat × CHeap := UniquePointer.null exMem.ch

/-- The memory after creating `exNull`. -/
def exNullMem : Mem Nat := { ch := exNull.2, vh := exMem.vh }

/-- `UniquePointer::from(42)`: the null handle with 42 written into it
(this is exactly what `impl From<T> for UniquePointer` does). -/
def exP : UniquePointer Nat × Mem Nat := exNull.1.write 42 exNullMem

/-- The clone of `exP` (a written, non-copy, non-null source). -/
def exClone : UniquePointer Nat × Mem Nat := exP.1.clone exP.2

/-- The clone of the null handle `exNull`. -/
def exNullClone : UniquePointer Nat × Mem Nat := exNull.1.clone exNullMem

/-- Memory for the "last reference" scenario: counter cell 1 stores 0,
value cell 1 stores 42. -/
def exZeroMem : Mem Nat :=
  { ch := { next := 2, cells := fun a => if a = 1 then some 0 else none },
    vh := { next := 2, cells := fun a => if a = 1 then some (some 42) else none } }

/-- An allocated, written, non-copy handle whose shared counter (cell 1
of `exZeroMem`) already reads 0. -/
def exZeroP : UniquePointer Nat :=
  { mut_addr := 1, mut_ptr := 1, refs := { data := 1 }, flags := 6 }

/-- A written, non-null `SmartPointer` over `Nat`. -/
def exSP : SmartPointer Nat := { mut_addr := 5, mut_ptr := 5, written := true }
/-- C9: `decrement_by` never underflows: for stored value `v`, when
`n ≤ v` the stored value becomes `v - n`, and when `n > v` the call
leaves the count unchanged — the counter value never goes below zero. -/
theorem refcounter_decr_by_saturates (rc : RefCounter) (h : CHeap) (n : Nat) :
    ((rc.decr_by h n).1).read (rc.decr_by h n).2 =
      if n ≤ rc.read h then rc.read h - n else rc.read h := by
  by_cases hn : n ≤ rc.read h
  · rw [if_pos hn]
    by_cases hd : rc.data = 0
    · have h0 : rc.read h = 0 := by simp [RefCounter.read, hd]
      have hn0 : n = 0 := by omega
      subst hn0
      by_cases hx : h.next = 0 <;>
        simp [RefCounter.decr_by, RefCounter.write, RefCounter.alloc, RefCounter.read, hd, hx]
    · have hn2 : n ≤ (h.cells rc.data).getD 0 := by simpa [RefCounter.read, hd] using hn
      simp [RefCounter.decr_by, RefCounter.write, RefCounter.alloc, RefCounter.read, hd, hn2]
  · rw [if_neg hn]
    simp [RefCounter.decr_by, hn]

/-- C4: `drain()` on a counter whose backing cell is allocated is a
complete no-op: the data pointer is unchanged and non-null, the heap is
untouched, and `read()` afterwards returns the value held before. -/
theorem refcounter_drain_preserves (rc : RefCounter) (h : CHeap) (hd : rc.data ≠ 0) :
    rc.drain h = (rc, h)
    ∧ (rc.drain h).1.data = rc.data
    ∧ (rc.drain h).1.data ≠ 0
    ∧ ((rc.drain h).1).read (rc.drain h).2 = rc.read h := by
  simp [RefCounter.drain, RefCounter.alloc, hd]

/-- Witness for C4 at the concrete counter `⟨1⟩` over `exCH`: the
hypothesis holds and `drain` preserves the stored value 5. -/
theorem refcounter_drain_preserves_witness :
    (RefCounter.mk 1).data ≠ 0
    ∧ ((RefCounter.mk 1).drain exCH = (RefCounter.mk 1, exCH)
       ∧ ((RefCounter.mk 1).drain exCH).1.data = (RefCounter.mk 1).data
       ∧ ((RefCounter.mk 1).drain exCH).1.data ≠ 0
       ∧ (((RefCounter.mk 1).drain exCH).1).read ((RefCounter.mk 1).drain exCH).2
           = (RefCounter.mk 1).read exCH) :=
  ⟨by decide, refcounter_drain_preserves (RefCounter.mk 1) exCH (by decide)⟩


/-- Helper: `set_mut_ptr` with `dealloc = false` leaves memory untouched
(the deallocation branch requires `dealloc = true`). -/
theorem set_mut_ptr_false_mem (up : UniquePointer T) (ptr : Nat) (m : Mem T) :
    (up.set_mut_ptr ptr false m).2 = m := by
  by_cases hp : ptr = 0 <;> simp [UniquePointer.set_mut_ptr, hp]

/-- Helper: with `dealloc = false`, `set_mut_ptr` only updates the
pointer and its provenance address. -/
theorem set_mut_ptr_false_handle (up : UniquePointer T) (ptr : Nat) (m : Mem T) :
    (up.set_mut_ptr ptr false m).1 =
      { up with mut_addr := if ptr = 0 then 0 else ptr, mut_ptr := ptr } := by
  by_cases hp : ptr = 0 <;> simp [UniquePointer.set_mut_ptr, hp]

/-- Helper: full characterisation of `clone` for a handle whose counter
cell is a live allocation (`data ≠ 0` and below the heap frontier). -/
theorem clone_spec (up : UniquePointer T) (m : Mem T)
    (hd : up.refs.data ≠ 0) (hlt : up.refs.data < m.ch.next) :
    (up.clone m).1.mut_ptr = up.mut_ptr
    ∧ (up.clone m).1.mut_addr = (if up.mut_ptr = 0 then 0 else up.mut_ptr)
    ∧ (up.clone m).1.flags = up.flags
    ∧ (up.clone m).1.refs = up.refs
    ∧ (up.clone m).2.vh = m.vh
    ∧ (up.clone m).1.refs.read (up.clone m).2.ch =
        (if up.is_null = true then up.refs.read m.ch else up.refs.read m.ch + 1)
    ∧ up.refs.read (up.clone m).2.ch =
        (if up.is_null = true then up.refs.read m.ch else up.refs.read m.ch + 1) := by
  have h1 : up.refs.data ≠ m.ch.next := by omega
  have h2 : up.refs.data ≠ m.ch.next + 1 := by omega
  by_cases hp : up.mut_ptr = 0 <;>
    simp [UniquePointer.clone, UniquePointer.incr_ref, UniquePointer.is_null,
      UniquePointer.copy, UniquePointer.null, UniquePointer.set_mut_ptr,
      RefCounter.clone, RefCounter.new, RefCounter.null, RefCounter.incr,
      RefCounter.incr_by, RefCounter.write, RefCounter.alloc, RefCounter.read,
      hd, hp, h1, h2]

/-- Helper: `clone` and `propagate` produce identical results — the only
textual difference (`copy()` vs `null()` skeleton) is erased by the
final `flags = self.flags` assignment. -/
theorem up_clone_eq_up_propagate (up : UniquePointer T) (m : Mem T) :
    up.clone m = up.propagate m := by
  by_cases hp : up.mut_ptr = 0 <;>
    simp [UniquePointer.clone, UniquePointer.propagate, UniquePointer.copy,
      UniquePointer.null, UniquePointer.set_mut_ptr, UniquePointer.incr_ref,
      UniquePointer.is_null, hp]

/-- C5: `clone()` is observationally identical to `propagate()` — the
two functions are extensionally equal on every handle and memory — and
on a live counter cell both return a handle with the source's pointer,
flags and counter cell, incrementing the shared counter exactly when the
source is non-null. -/
theorem clone_observationally_eq_propagate (up : UniquePointer T) (m : Mem T)
    (hd : up.refs.data ≠ 0) (hlt : up.refs.data < m.ch.next) :
    up.clone m = up.propagate m
    ∧ (up.propagate m).1.mut_ptr = up.mut_ptr
    ∧ (up.propagate m).1.flags = up.flags
    ∧ (up.propagate m).1.refs = up.refs
    ∧ (up.propagate m).2.vh = m.vh
    ∧ (up.is_null = false →
        (up.propagate m).1.refs.read (up.propagate m).2.ch = up.refs.read m.ch + 1)
    ∧ (up.is_null = true →
        (up.propagate m).1.refs.read (up.propagate m).2.ch = up.refs.read m.ch) := by
  obtain ⟨s1, s2, s3, s4, s5, s6, s7⟩ := clone_spec up m hd hlt
  have he := up_clone_eq_up_propagate up m
  refine ⟨he, ?_, ?_, ?_, ?_, fun h => ?_, fun h => ?_⟩ <;> rw [← he]
  · exact s1
  · exact s3
  · exact s4
  · exact s5
  · simp [s6, h]
  · simp [s6, h]

/-- Witness for C5 at the written non-null handle `exP`. -/
theorem clone_observationally_eq_propagate_witness :
    exP.1.refs.data ≠ 0 ∧ exP.1.refs.data < exP.2.ch.next
    ∧ (exP.1.clone exP.2 = exP.1.propagate exP.2
       ∧ (exP.1.propagate exP.2).1.mut_ptr = exP.1.mut_ptr
       ∧ (exP.1.propagate exP.2).1.flags = exP.1.flags
       ∧ (exP.1.propagate exP.2).1.refs = exP.1.refs
       ∧ (exP.1.propagate exP.2).2.vh = exP.2.vh
       ∧ (exP.1.is_null = false →
           (exP.1.propagate exP.2).1.refs.read (exP.1.propagate exP.2).2.ch
             = exP.1.refs.read exP.2.ch + 1)
       ∧ (exP.1.is_null = true →
           (exP.1.propagate exP.2).1.refs.read (exP.1.propagate exP.2).2.ch
             = exP.1.refs.read exP.2.ch)) :=
  ⟨by decide, by decide,
   clone_observationally_eq_propagate exP.1 exP.2 (by decide) (by decide)⟩

/-- C1: evaluation at the failing input `UniquePointer::from(42)` (a
non-null, written, non-copy owner): its clone is NOT flagged as a copy —
`clone.flags = self.flags` in `impl Clone` overwrites the `ISACOPY` bit
that `copy()` set, so `is_copy()` is false on the clone. -/
theorem clone_of_owner_not_flagged_as_copy :
    exP.1.is_null = false ∧ exP.1.is_written = true ∧ exP.1.is_copy = false
    ∧ exClone.1.is_copy = false
    ∧ exClone.1.flags = exP.1.flags := by decide

/-- C2 counterexample: cloning the Null handle leaves the shared counter
at 1, so `h.clone().refs() = h.refs() + 1` fails at `h = exNull.1`. -/
theorem clone_null_handle_counter_cex :
    exNullClone.1.refs_count exNullClone.2.ch = 1
    ∧ exNull.1.refs_count exNullMem.ch = 1
    ∧ exNullClone.1.refs_count exNullClone.2.ch
        ≠ exNull.1.refs_count exNullMem.ch + 1 := by decide

/-- C2 (amended): for a non-null handle, the clone's counter value is
the source's pre-clone value plus one (and the source observes the same
incremented value through the shared cell); the clone reports the same
`addr()`.  For the Null handle the counter is unchanged and the address
is 0. -/
theorem clone_counter_and_address (up : UniquePointer T) (m : Mem T)
    (hd : up.refs.data ≠ 0) (hlt : up.refs.data < m.ch.next)
    (haddr : up.mut_addr = up.mut_ptr) :
    (up.clone m).1.addr = up.addr
    ∧ (up.is_null = false →
        (up.clone m).1.refs_count (up.clone m).2.ch = up.refs_count m.ch + 1
        ∧ up.refs_count (up.clone m).2.ch = up.refs_count m.ch + 1)
    ∧ (up.is_null = true →
        (up.clone m).1.refs_count (up.clone m).2.ch = up.refs_count m.ch
        ∧ up.addr = 0) := by
  obtain ⟨s1, s2, s3, s4, s5, s6, s7⟩ := clone_spec up m hd hlt
  refine ⟨?_, fun h => ⟨?_, ?_⟩, fun h => ⟨?_, ?_⟩⟩
  · by_cases hp : up.mut_ptr = 0 <;> simp [UniquePointer.addr, s2, hp, haddr]
  · simp [UniquePointer.refs_count, s6, h]
  · simp [UniquePointer.refs_count, s7, h]
  · simp [UniquePointer.refs_count, s6, h]
  · have hp : up.mut_ptr = 0 := by simpa [UniquePointer.is_null] using h
    simp [UniquePointer.addr, haddr, hp]

/-- Witness for C2's amended statement at the written handle `exP`. -/
theorem clone_counter_and_address_witness :
    exP.1.refs.data ≠ 0 ∧ exP.1.refs.data < exP.2.ch.next
    ∧ exP.1.mut_addr = exP.1.mut_ptr
    ∧ ((exP.1.clone exP.2).1.addr = exP.1.addr
       ∧ (exP.1.is_null = false →
           (exP.1.clone exP.2).1.refs_count (exP.1.clone exP.2).2.ch
             = exP.1.refs_count exP.2.ch + 1
           ∧ exP.1.refs_count (exP.1.clone exP.2).2.ch = exP.1.refs_count exP.2.ch + 1)
       ∧ (exP.1.is_null = true →
           (exP.1.clone exP.2).1.refs_count (exP.1.clone exP.2).2.ch
             = exP.1.refs_count exP.2.ch
           ∧ exP.1.addr = 0)) :=
  ⟨by decide, by decide, by decide,
   clone_counter_and_address exP.1 exP.2 (by decide) (by decide) (by decide)⟩

/-- C3: soft-releasing an allocated, written, non-copy handle whose
shared counter already reads 0 resets the handle: afterwards it is not
allocated, `read()` fails, the handle is Null and all flags are
cleared. -/
theorem dealloc_last_reference_resets (up : UniquePointer T) (m : Mem T)
    (ha : up.is_allocated = true) (_hw : up.is_written = true)
    (hc : up.is_copy = false) (h0 : up.refs.read m.ch = 0) :
    (up.dealloc true m).1.is_allocated = false
    ∧ (up.dealloc true m).1.read (up.dealloc true m).2 = none
    ∧ (up.dealloc true m).1.is_null = true
    ∧ (up.dealloc true m).1.flags = 0 := by
  have hbit : (up.flags &&& ISALLOC) == ISALLOC := by
    have := ha
    simp [UniquePointer.is_allocated, Bool.and_eq_true] at this
    simp [this.1]
  have hptr : ¬(up.mut_ptr = 0) := by
    have := ha
    simp [UniquePointer.is_allocated, UniquePointer.is_not_null, UniquePointer.is_null,
      Bool.and_eq_true] at this
    exact this.2
  have hcd : up.can_dealloc = true := by
    simp [UniquePointer.can_dealloc, UniquePointer.is_not_copy,
      UniquePointer.is_not_null, UniquePointer.is_null, hbit, hc, hptr]
  by_cases hrd : up.refs.data = 0 <;>
    simp [UniquePointer.dealloc, UniquePointer.free, UniquePointer.set_mut_ptr,
      UniquePointer.is_null, UniquePointer.is_allocated, UniquePointer.is_written,
      UniquePointer.is_not_null, UniquePointer.read, RefCounter.drain, RefCounter.alloc,
      hptr, h0, hcd, hrd]

/-- Witness for C3 at the concrete last-reference scenario `exZeroP`
over `exZeroMem`. -/
theorem dealloc_last_reference_resets_witness :
    exZeroP.is_allocated = true ∧ exZeroP.is_written = true
    ∧ exZeroP.is_copy = false ∧ exZeroP.refs.read exZeroMem.ch = 0
    ∧ ((exZeroP.dealloc true exZeroMem).1.is_allocated = false
       ∧ (exZeroP.dealloc true exZeroMem).1.read (exZeroP.dealloc true exZeroMem).2 = none
       ∧ (exZeroP.dealloc true exZeroMem).1.is_null = true
       ∧ (exZeroP.dealloc true exZeroMem).1.flags = 0) :=
  ⟨by decide, by decide, by decide, by decide,
   dealloc_last_reference_resets exZeroP exZeroMem
     (by decide) (by decide) (by decide) (by decide)⟩

/-- C6: the deallocation branch of `set_mut_ptr` is never taken — every
internal call passes `dealloc = false` — so no operation ever removes a
value allocation: `set_mut_ptr(_, false)` leaves memory untouched,
`free`, `dealloc`, `clone` and `propagate` leave the value heap exactly
as it was, `alloc` at most adds one fresh zeroed cell, and `free` either
leaves the handle unchanged or just nulls the pointer and clears the
flags. -/
theorem no_operation_frees_value_memory (up : UniquePointer T) (ptr : Nat)
    (m : Mem T) (soft : Bool) :
    (up.set_mut_ptr ptr false m).2 = m
    ∧ (up.free m).2.vh = m.vh
    ∧ (up.dealloc soft m).2.vh = m.vh
    ∧ (up.clone m).2.vh = m.vh
    ∧ (up.propagate m).2.vh = m.vh
    ∧ (∀ a, (up.alloc m).2.vh.cells a = m.vh.cells a
        ∨ (a = m.vh.next ∧ (up.alloc m).2.vh.cells a = some none))
    ∧ ((up.free m).1.mut_ptr = 0 ∨ (up.free m).1 = up)
    ∧ ((up.free m).1.flags = 0 ∨ (up.free m).1 = up) := by
  have hsm : ∀ (v : UniquePointer T) (q : Nat) (w : Mem T),
      (v.set_mut_ptr q false w).2 = w := fun v q w => set_mut_ptr_false_mem v q w
  have hfree : (up.free m).2.vh = m.vh := by
    by_cases hcd : up.can_dealloc = false
    · simp [UniquePointer.free, hcd]
    · by_cases hn : up.is_null = false <;>
        simp [UniquePointer.free, hcd, hn, hsm]
  refine ⟨hsm up ptr m, hfree, ?_, ?_, ?_, ?_, ?_, ?_⟩
  · by_cases hn : up.is_null = true
    · simp [UniquePointer.dealloc, hn]
    · by_cases hs : soft = true ∧ 0 < up.refs.read m.ch <;>
        simp [UniquePointer.dealloc, hn, hs, hfree]
  · simp [UniquePointer.clone, hsm]
  · simp [UniquePointer.propagate, hsm]
  · intro a
    by_cases hal : up.is_allocated = true
    · simp [UniquePointer.alloc, hal]
    · by_cases hax : a = m.vh.next
      · right
        refine ⟨hax, ?_⟩
        simp [UniquePointer.alloc, hal, hsm, hax]
      · left
        simp [UniquePointer.alloc, hal, hsm, hax]
  · by_cases hcd : up.can_dealloc = false
    · right; simp [UniquePointer.free, hcd]
    · by_cases hn : up.is_null = false
      · left; simp [UniquePointer.free, hcd, hn, set_mut_ptr_false_handle]
      · -- contradictory: can_dealloc implies not null
        exfalso
        simp [UniquePointer.can_dealloc, UniquePointer.is_not_null, Bool.and_eq_true] at hcd
        simp [UniquePointer.is_null] at hn
        simp [UniquePointer.is_null, hn] at hcd
  · by_cases hcd : up.can_dealloc = false
    · right; simp [UniquePointer.free, hcd]
    · by_cases hn : up.is_null = false
      · left; simp [UniquePointer.free, hcd, hn]
      · left; simp [UniquePointer.free, hcd, hn]

/-- C8: `read()` fails exactly on Null or not-Written handles,
`try_read()` agrees with `read()` everywhere, and on a Written handle
both return the stored value.  The hypothesis is the memory-safety
invariant that a handle whose `WRITTEN` bit is set points at a cell into
which a `T` was actually stored. -/
theorem read_and_try_read_spec (up : UniquePointer T) (m : Mem T)
    (hwf : up.is_written = true → ∃ v, m.vh.cells up.mut_ptr = some (some v)) :
    up.try_read m = up.read m
    ∧ (up.read m = none ↔ (up.is_null = true ∨ up.is_written = false))
    ∧ (up.is_written = true →
        ∃ v, m.vh.cells up.mut_ptr = some (some v)
          ∧ up.read m = some v ∧ up.try_read m = some v) := by
  by_cases hn : up.is_null = true
  · have hwr : up.is_written = false := by
      cases hb : up.is_written with
      | false => rfl
      | true =>
        exfalso
        have := hb
        simp [UniquePointer.is_written, UniquePointer.is_allocated,
          UniquePointer.is_not_null, Bool.and_eq_true] at this
        simp [hn] at this
    simp [UniquePointer.read, UniquePointer.try_read, hn, hwr]
  · by_cases hwr : up.is_written = true
    · obtain ⟨v, hv⟩ := hwf hwr
      refine ⟨?_, ?_, fun _ => ⟨v, hv, ?_, ?_⟩⟩ <;>
        simp [UniquePointer.read, UniquePointer.try_read, hn, hwr, hv]
    · have hwr2 : up.is_written = false := by
        cases hb : up.is_written with
        | false => rfl
        | true => exact absurd hb hwr
      simp [UniquePointer.read, UniquePointer.try_read, hn, hwr2]

/-- Witness for C8 at the written handle `exP`: the well-formedness
hypothesis holds with stored value 42. -/
theorem read_and_try_read_spec_witness :
    (exP.1.is_written = true → ∃ v, exP.2.vh.cells exP.1.mut_ptr = some (some v))
    ∧ (exP.1.try_read exP.2 = exP.1.read exP.2
       ∧ (exP.1.read exP.2 = none ↔ (exP.1.is_null = true ∨ exP.1.is_written = false))
       ∧ (exP.1.is_written = true →
           ∃ v, exP.2.vh.cells exP.1.mut_ptr = some (some v)
             ∧ exP.1.read exP.2 = some v ∧ exP.1.try_read exP.2 = some v)) :=
  ⟨fun _ => ⟨42, rfl⟩,
   read_and_try_read_spec exP.1 exP.2 (fun _ => ⟨42, rfl⟩)⟩

/-- C10: for every value `v`, creating a null handle and writing `v`
into it makes `read()` return `v` (over any memory whose value heap
allocates at non-null addresses). -/
theorem create_null_write_read (T : Type) (v : T) (m : Mem T) (hv : m.vh.next ≠ 0) :
    (((UniquePointer.null (T := T) m.ch).1.write v
        { ch := (UniquePointer.null (T := T) m.ch).2, vh := m.vh }).1).read
      (((UniquePointer.null (T := T) m.ch).1.write v
        { ch := (UniquePointer.null (T := T) m.ch).2, vh := m.vh }).2) = some v := by
  simp [UniquePointer.null, UniquePointer.write, UniquePointer.alloc,
    UniquePointer.set_mut_ptr, UniquePointer.read, UniquePointer.is_null,
    UniquePointer.is_not_null, UniquePointer.is_allocated, UniquePointer.is_written,
    RefCounter.new, RefCounter.null, RefCounter.incr, RefCounter.incr_by,
    RefCounter.write, RefCounter.alloc, RefCounter.read,
    ISACOPY, ISALLOC, WRITTEN, hv]
  decide

/-- Witness for C10 at `v = 42` over the initial memory. -/
theorem create_null_write_read_witness :
    exMem.vh.next ≠ 0
    ∧ (((UniquePointer.null (T := Nat) exMem.ch).1.write 42
          { ch := (UniquePointer.null (T := Nat) exMem.ch).2, vh := exMem.vh }).1).read
        (((UniquePointer.null (T := Nat) exMem.ch).1.write 42
          { ch := (UniquePointer.null (T := Nat) exMem.ch).2, vh := exMem.vh }).2) = some 42 :=
  ⟨by decide, create_null_write_read Nat 42 exMem (by decide)⟩

/-- C7 counterexample: cloning the Null `SmartPointer` yields a handle
whose `written` flag is `true` although the source's is `false` — the
clone is not bitwise-identical to the source. -/
theorem smart_pointer_clone_null_cex :
    (SmartPointer.null (T := Nat)).clone.written = true
    ∧ (SmartPointer.null (T := Nat)).written = false
    ∧ (SmartPointer.null (T := Nat)).clone ≠ SmartPointer.null (T := Nat) := by decide

/-- C7 (amended): `clone()` of an `AliasPointer` (`SmartPointer`) yields
an independent handle with the source's address whose `written` flag is
unconditionally `true`; the copy is bitwise-identical to the source
exactly when the source is already written. -/
theorem smart_pointer_clone_spec (sp : SmartPointer T)
    (haddr : sp.mut_addr = sp.mut_ptr) :
    sp.clone.mut_ptr = sp.mut_ptr
    ∧ sp.clone.mut_addr = sp.mut_addr
    ∧ sp.clone.addr = sp.addr
    ∧ sp.clone.written = true
    ∧ (sp.written = true → sp.clone = sp) := by
  refine ⟨rfl, haddr.symm, haddr.symm, rfl, fun hw => ?_⟩
  cases sp
  simp_all [SmartPointer.clone, SmartPointer.copy_from_mut_ptr, SmartPointer.addr]

/-- Witness for C7's amended statement at the written handle `exSP`. -/
theorem smart_pointer_clone_spec_witness :
    exSP.mut_addr = exSP.mut_ptr
    ∧ (exSP.clone.mut_ptr = exSP.mut_ptr
       ∧ exSP.clone.mut_addr = exSP.mut_addr
       ∧ exSP.clone.addr = exSP.addr
       ∧ exSP.clone.written = true
       ∧ (exSP.written = true → exSP.clone = exSP)) :=
  ⟨by decide, smart_pointer_clone_spec exSP (by decide)⟩
